import Mathlib

/-!
Verification development for the `qick_dawg_johns_ver` NV-center pulse-program
repository.  The files embedded here are
`qickdawg/nvpulsing/lockinodmr_johns.py`, `qickdawg/nvpulsing/rabisweep_johns.py`
and `qickdawg/nvpulsing/t1delaysweep_johns.py`.

The numeric post-processing (`analyze_results`) is embedded over rational
numbers: a flat 1-D numpy array becomes a `List ℚ`, and an `n`-dimensional
reshaped array becomes a record holding its dimensions together with its
(row-major) entry map.  The pulse-timing methods (`initialize`, `body`) are
embedded as the ordered list of hardware calls they issue, with the assertion
failure of `LockinODMR_johns.initialize` modelled as an error that carries the
events emitted before the abort.
-/

/-- A 1-dimensional numpy array: its length and its entry map. -/
structure Arr1 where
  n : ℕ
  f : ℕ → ℚ

/-- A 2-dimensional numpy array: its shape and its entry map. -/
structure Arr2 where
  d0 : ℕ
  d1 : ℕ
  f : ℕ → ℕ → ℚ

/-- A 3-dimensional numpy array: its shape and its entry map. -/
structure Arr3 where
  d0 : ℕ
  d1 : ℕ
  d2 : ℕ
  f : ℕ → ℕ → ℕ → ℚ

/-- A 4-dimensional numpy array: its shape and its entry map. -/
structure Arr4 where
  d0 : ℕ
  d1 : ℕ
  d2 : ℕ
  d3 : ℕ
  f : ℕ → ℕ → ℕ → ℕ → ℚ

/-- Row-major `np.reshape` of a flat array to shape `(d0, d1)`. -/
def reshape2 (data : List ℚ) (d0 d1 : ℕ) : Arr2 :=
  ⟨d0, d1, fun i j => data.getD (i * d1 + j) 0⟩

/-- Row-major `np.reshape` of a flat array to shape `(d0, d1, d2)`. -/
def reshape3 (data : List ℚ) (d0 d1 d2 : ℕ) : Arr3 :=
  ⟨d0, d1, d2, fun i j k => data.getD ((i * d1 + j) * d2 + k) 0⟩

/-- Row-major `np.reshape` of a flat array to shape `(d0, d1, d2, d3)`. -/
def reshape4 (data : List ℚ) (d0 d1 d2 d3 : ℕ) : Arr4 :=
  ⟨d0, d1, d2, d3, fun i j k l => data.getD (((i * d1 + j) * d2 + k) * d3 + l) 0⟩

/-- Elementwise division of a 2-D array by a scalar (`data / treg`). -/
def npDiv2 (a : Arr2) (t : ℚ) : Arr2 := ⟨a.d0, a.d1, fun i j => a.f i j / t⟩

/-- Elementwise division of a 3-D array by a scalar (`data / treg`). -/
def npDiv3 (a : Arr3) (t : ℚ) : Arr3 := ⟨a.d0, a.d1, a.d2, fun i j k => a.f i j k / t⟩

/-- Elementwise division of a 4-D array by a scalar (`data / treg`). -/
def npDiv4 (a : Arr4) (t : ℚ) : Arr4 :=
  ⟨a.d0, a.d1, a.d2, a.d3, fun i j k l => a.f i j k l / t⟩

/-- Source lines `data = np.reshape(data, self.data_shape)` followed by
`data = data / self.cfg.readout_integration_treg`, for a 2-D data shape. -/
def normed2 (data : List ℚ) (d0 d1 : ℕ) (t : ℚ) : Arr2 := npDiv2 (reshape2 data d0 d1) t

/-- Reshape followed by time normalization, for a 3-D data shape. -/
def normed3 (data : List ℚ) (d0 d1 d2 : ℕ) (t : ℚ) : Arr3 := npDiv3 (reshape3 data d0 d1 d2) t

/-- Reshape followed by time normalization, for a 4-D data shape. -/
def normed4 (data : List ℚ) (d0 d1 d2 d3 : ℕ) (t : ℚ) : Arr4 :=
  npDiv4 (reshape4 data d0 d1 d2 d3) t

/-- The numpy slice `data[:, s]`. -/
def sliceLast2 (a : Arr2) (s : ℕ) : Arr1 := ⟨a.d0, fun i => a.f i s⟩

/-- The numpy slice `data[:, :, s]`. -/
def sliceLast3 (a : Arr3) (s : ℕ) : Arr2 := ⟨a.d0, a.d1, fun i j => a.f i j s⟩

/-- The numpy slice `data[:, :, :, s]`. -/
def sliceLast4 (a : Arr4) (s : ℕ) : Arr3 := ⟨a.d0, a.d1, a.d2, fun i j k => a.f i j k s⟩

/-- Elementwise binary operation on equal-shape 1-D arrays. -/
def map2Arr1 (op : ℚ → ℚ → ℚ) (a b : Arr1) : Arr1 := ⟨a.n, fun i => op (a.f i) (b.f i)⟩

/-- Elementwise binary operation on equal-shape 2-D arrays. -/
def map2Arr2 (op : ℚ → ℚ → ℚ) (a b : Arr2) : Arr2 :=
  ⟨a.d0, a.d1, fun i j => op (a.f i j) (b.f i j)⟩

/-- Elementwise binary operation on equal-shape 3-D arrays. -/
def map2Arr3 (op : ℚ → ℚ → ℚ) (a b : Arr3) : Arr3 :=
  ⟨a.d0, a.d1, a.d2, fun i j k => op (a.f i j k) (b.f i j k)⟩

/-- The numpy reduction `np.mean(a, axis=0)` for a 2-D array. -/
def mean0of2 (a : Arr2) : Arr1 :=
  ⟨a.d1, fun j => (∑ i ∈ Finset.range a.d0, a.f i j) / (a.d0 : ℚ)⟩

/-- The numpy reduction `np.mean(a, axis=0)` for a 3-D array. -/
def mean0of3 (a : Arr3) : Arr2 :=
  ⟨a.d1, a.d2, fun j k => (∑ i ∈ Finset.range a.d0, a.f i j k) / (a.d0 : ℚ)⟩

/-- The numpy reduction `np.mean(a, axis=0)` for a 4-D array. -/
def mean0of4 (a : Arr4) : Arr3 :=
  ⟨a.d1, a.d2, a.d3, fun j k l => (∑ i ∈ Finset.range a.d0, a.f i j k l) / (a.d0 : ℚ)⟩

/-- The contrast expression `(signal - reference) / reference * 100` of both
`analyze_results` methods. -/
def contrastOp (s r : ℚ) : ℚ := (s - r) / r * 100

/-- The configuration object (`qickdawg.NVConfiguration`) restricted to the
attributes read by the three embedded classes.  Register-unit times, channels
and gains are integers; swept frequencies (`mw_start_fMHz`, `mw_end_fMHz`) and
the exponential scaling factor are rationals; `pre_init` is a boolean and
`scaling_mode` a string.  The attribute written `laser_initialize_treg` in the
source is named `laser_init_treg` here. -/
structure NVConfig where
  adc_channel : ℤ
  readout_integration_treg : ℤ
  mw_channel : ℤ
  mw_nqz : ℤ
  mw_gain : ℤ
  mw_freg : ℤ
  mw_start_freg : ℤ
  mw_start_fMHz : ℚ
  mw_end_fMHz : ℚ
  nsweep_points : ℤ
  mw_start_treg : ℤ
  mw_end_treg : ℤ
  mw_delta_treg : ℤ
  mw_delay_treg : ℤ
  mw_pi2_treg : ℤ
  mw_readout_delay_treg : ℤ
  pre_init : Bool
  relax_delay_treg : ℤ
  adc_trigger_offset_treg : ℤ
  adc_trig_offset_treg : ℤ
  laser_gate_pmod : ℤ
  laser_init_treg : ℤ
  laser_on_treg : ℤ
  scaling_mode : String
  scaling_factor : ℚ
  delay_start_treg : ℤ
  delay_end_treg : ℤ
  reps : ℤ
  laser_power : ℚ

/-- The `ItemAttribute` returned by `LockinODMR_johns.analyze_results`
(the externally produced `.frequencies` attribute is omitted). -/
structure ODMRResult where
  odmr : Arr1
  signal : Arr1
  reference : Arr1
  odmr_contrast : Arr1

/-- The `ItemAttribute` returned by `RabiSweep_johns.analyze_results`
(the externally produced `.sweep_treg` / `.sweep_tus` attributes are omitted). -/
structure RabiResult where
  signal : Arr1
  reference : Arr1
  contrast : Arr1

/-- `LockinODMR_johns.analyze_results`, branch `len(self.data_shape) == 2`:
slice signal and reference, form `odmr` and `odmr_contrast`; the averaging
loop runs `len(odmr.shape) - 1 = 0` times. -/
def LockinODMR_analyze2 (d0 d1 : ℕ) (data : List ℚ) (t : ℚ) : ODMRResult :=
  let nd := normed2 data d0 d1 t
  let signal := sliceLast2 nd 0
  let reference := sliceLast2 nd 1
  let odmr := map2Arr1 (· - ·) signal reference
  let odmr_contrast := map2Arr1 contrastOp signal reference
  ⟨odmr, signal, reference, odmr_contrast⟩

/-- `LockinODMR_johns.analyze_results`, branch `len(self.data_shape) == 3`:
the averaging loop runs once (`np.mean(..., axis=0)` on all four arrays). -/
def LockinODMR_analyze3 (d0 d1 d2 : ℕ) (data : List ℚ) (t : ℚ) : ODMRResult :=
  let nd := normed3 data d0 d1 d2 t
  let signal := sliceLast3 nd 0
  let reference := sliceLast3 nd 1
  let odmr := map2Arr2 (· - ·) signal reference
  let odmr_contrast := map2Arr2 contrastOp signal reference
  ⟨mean0of2 odmr, mean0of2 signal, mean0of2 reference, mean0of2 odmr_contrast⟩

/-- `LockinODMR_johns.analyze_results`, branch `len(self.data_shape) == 4`:
the averaging loop runs twice. -/
def LockinODMR_analyze4 (d0 d1 d2 d3 : ℕ) (data : List ℚ) (t : ℚ) : ODMRResult :=
  let nd := normed4 data d0 d1 d2 d3 t
  let signal := sliceLast4 nd 0
  let reference := sliceLast4 nd 1
  let odmr := map2Arr3 (· - ·) signal reference
  let odmr_contrast := map2Arr3 contrastOp signal reference
  ⟨mean0of2 (mean0of3 odmr), mean0of2 (mean0of3 signal),
   mean0of2 (mean0of3 reference), mean0of2 (mean0of3 odmr_contrast)⟩

/-- `LockinODMR_johns.analyze_results`.  `np.reshape` raises unless the input
size equals the product of `self.data_shape` (modelled as `none`); a data shape
whose length is not 2, 3 or 4 leaves `signal`/`reference` unassigned, so the
method aborts with `UnboundLocalError` (also modelled as `none`). -/
def LockinODMR_analyze_results (dataShape : List ℕ) (cfg : NVConfig) (data : List ℚ) :
    Option ODMRResult :=
  if data.length = dataShape.prod then
    match dataShape with
    | [d0, d1] => some (LockinODMR_analyze2 d0 d1 data (cfg.readout_integration_treg : ℚ))
    | [d0, d1, d2] => some (LockinODMR_analyze3 d0 d1 d2 data (cfg.readout_integration_treg : ℚ))
    | [d0, d1, d2, d3] =>
        some (LockinODMR_analyze4 d0 d1 d2 d3 data (cfg.readout_integration_treg : ℚ))
    | _ => none
  else none

/-- `RabiSweep_johns.analyze_results`, branch `len(self.data_shape) == 2`:
the averaging loop runs `len(signal.shape) - 1 = 0` times, then
`contrast = (signal - reference) / reference * 100`. -/
def RabiSweep_analyze2 (d0 d1 : ℕ) (data : List ℚ) (t : ℚ) : RabiResult :=
  let nd := normed2 data d0 d1 t
  let signal := sliceLast2 nd 0
  let reference := sliceLast2 nd 1
  ⟨signal, reference, map2Arr1 contrastOp signal reference⟩

/-- `RabiSweep_johns.analyze_results`, branch `len(self.data_shape) == 3`:
signal and reference are averaged once, then the contrast is computed from the
averaged arrays. -/
def RabiSweep_analyze3 (d0 d1 d2 : ℕ) (data : List ℚ) (t : ℚ) : RabiResult :=
  let nd := normed3 data d0 d1 d2 t
  let signal := mean0of2 (sliceLast3 nd 0)
  let reference := mean0of2 (sliceLast3 nd 1)
  ⟨signal, reference, map2Arr1 contrastOp signal reference⟩

/-- `RabiSweep_johns.analyze_results`, branch `len(self.data_shape) == 4`:
signal and reference are averaged twice, then the contrast is computed. -/
def RabiSweep_analyze4 (d0 d1 d2 d3 : ℕ) (data : List ℚ) (t : ℚ) : RabiResult :=
  let nd := normed4 data d0 d1 d2 d3 t
  let signal := mean0of2 (mean0of3 (sliceLast4 nd 0))
  let reference := mean0of2 (mean0of3 (sliceLast4 nd 1))
  ⟨signal, reference, map2Arr1 contrastOp signal reference⟩

/-- `RabiSweep_johns.analyze_results` with the same reshape/size and
shape-length error behaviour as `LockinODMR_johns.analyze_results`. -/
def RabiSweep_analyze_results (dataShape : List ℕ) (cfg : NVConfig) (data : List ℚ) :
    Option RabiResult :=
  if data.length = dataShape.prod then
    match dataShape with
    | [d0, d1] => some (RabiSweep_analyze2 d0 d1 data (cfg.readout_integration_treg : ℚ))
    | [d0, d1, d2] => some (RabiSweep_analyze3 d0 d1 d2 data (cfg.readout_integration_treg : ℚ))
    | [d0, d1, d2, d3] =>
        some (RabiSweep_analyze4 d0 d1 d2 d3 data (cfg.readout_integration_treg : ℚ))
    | _ => none
  else none

/-- A handle to a generator register: `get_gen_reg(ch, name)` or
`new_gen_reg(ch, name=...)`. -/
inductive RegId where
  | genReg (ch : ℤ) (name : String)
  | newGenReg (ch : ℤ) (name : String)
deriving DecidableEq

/-- The argument tuple of an `add_sweep` call, one constructor per call shape
appearing in the sources: `QickSweep(self, reg, start, stop, expts)` in
`LockinODMR_johns`, `NVQickSweep(..., label='length', mw_channel=...)` in
`RabiSweep_johns`, and the exponential / linear `NVQickSweep` calls in
`T1DelaySweep`. -/
inductive SweepSpec where
  | qickSweep (reg : RegId) (startVal stopVal : ℚ) (expts : ℤ)
  | nvLength (reg : RegId) (startVal stopVal expts : ℤ) (label : String) (mwChannel : ℤ)
  | nvExp (reg : RegId) (startVal stopVal expts : ℤ) (mode : String) (factor : ℚ)
  | nvLin (reg : RegId) (startVal stopVal expts : ℤ)
deriving DecidableEq

/-- The register handle a sweep is attached to. -/
def SweepSpec.reg : SweepSpec → RegId
  | .qickSweep r _ _ _ => r
  | .nvLength r _ _ _ _ _ => r
  | .nvExp r _ _ _ _ _ => r
  | .nvLin r _ _ _ => r

/-- The start value of a sweep (treg start values cast to `ℚ`). -/
def SweepSpec.startv : SweepSpec → ℚ
  | .qickSweep _ a _ _ => a
  | .nvLength _ a _ _ _ _ => (a : ℚ)
  | .nvExp _ a _ _ _ _ => (a : ℚ)
  | .nvLin _ a _ _ => (a : ℚ)

/-- The stop value of a sweep (treg stop values cast to `ℚ`). -/
def SweepSpec.stopv : SweepSpec → ℚ
  | .qickSweep _ _ b _ => b
  | .nvLength _ _ b _ _ _ => (b : ℚ)
  | .nvExp _ _ b _ _ _ => (b : ℚ)
  | .nvLin _ _ b _ => (b : ℚ)

/-- The number of points of a sweep. -/
def SweepSpec.expts : SweepSpec → ℤ
  | .qickSweep _ _ _ e => e
  | .nvLength _ _ _ e _ _ => e
  | .nvExp _ _ _ e _ _ => e
  | .nvLin _ _ _ e => e

/-- One hardware call of the external control library, with the arguments the
embedded methods pass at each call site.  `pulse` and `trigger` take `none`
for an omitted `t` keyword.  `setPulseRegisters` / `defaultPulseRegisters`
record their numeric and string keyword arguments as association lists. -/
inductive HWEvent where
  | declareReadout (ch freq len : ℤ) (sel : String)
  | declareGen (ch nqz : ℤ)
  | defaultPulseRegisters (ch : ℤ) (numArgs : List (String × ℤ))
      (strArgs : List (String × String))
  | setPulseRegisters (ch : ℤ) (numArgs : List (String × ℤ))
      (strArgs : List (String × String))
  | getGenReg (reg : RegId)
  | newGenRegEvt (reg : RegId) (initVal : ℤ)
  | addSweep (s : SweepSpec)
  | synci (t : ℤ)
  | pulse (ch : ℤ) (t : Option ℤ)
  | trigger (adcs : List ℤ) (pins : List ℤ) (width : ℤ) (adcTrigOffset : ℤ) (t : Option ℤ)
  | syncAll (t : ℤ)
  | syncReg (reg : RegId)
  | waitAll
  | ttlReadout
deriving DecidableEq

/-- The kind of a hardware call, forgetting its arguments. -/
inductive HWKind where
  | declare
  | setReg
  | regAlloc
  | sweep
  | syncOp
  | pulseOp
  | triggerOp
  | waitOp
  | readoutOp
deriving DecidableEq

/-- Kind projection for hardware calls. -/
def HWEvent.kind : HWEvent → HWKind
  | .declareReadout .. => .declare
  | .declareGen .. => .declare
  | .defaultPulseRegisters .. => .setReg
  | .setPulseRegisters .. => .setReg
  | .getGenReg .. => .regAlloc
  | .newGenRegEvt .. => .regAlloc
  | .addSweep .. => .sweep
  | .synci .. => .syncOp
  | .pulse .. => .pulseOp
  | .trigger .. => .triggerOp
  | .syncAll .. => .syncOp
  | .syncReg .. => .syncOp
  | .waitAll => .waitOp
  | .ttlReadout => .readoutOp

/-- Outcome of an `initialize` method: the hardware calls issued, and the
message of the assertion that aborted it, if any (the events list then holds
exactly the calls issued before the abort). -/
structure InitOutcome where
  events : List HWEvent
  error : Option String
deriving DecidableEq

/-- `LockinODMR_johns.initialize` (lines 108-156): after `check_cfg`, the gain
guard `if self.cfg.mw_gain > 30000: assert 0, ...` aborts before any hardware
call; otherwise the method declares the readout and the generator, sets the
pulse registers, fetches the frequency register, adds the frequency sweep,
issues `synci(400)`, and, when `pre_init` is set, pulses the microwave and
gates the laser once. -/
def LockinODMR_init (cfg : NVConfig) : InitOutcome :=
  if cfg.mw_gain > 30000 then
    ⟨[], some ("Microwave gain exceeds maximum value")⟩
  else
    ⟨[.declareReadout cfg.adc_channel 0 cfg.readout_integration_treg ("input"),
      .declareGen cfg.mw_channel cfg.mw_nqz,
      .setPulseRegisters cfg.mw_channel
        [(("freq"), cfg.mw_start_freg), (("gain"), cfg.mw_gain),
         (("length"), cfg.readout_integration_treg), (("phase"), 0)]
        [(("style"), ("const")), (("stdysel"), ("zero")), (("mode"), ("oneshot"))],
      .getGenReg (.genReg cfg.mw_channel ("freq")),
      .addSweep (.qickSweep (.genReg cfg.mw_channel ("freq"))
        cfg.mw_start_fMHz cfg.mw_end_fMHz cfg.nsweep_points),
      .synci 400]
     ++ (if cfg.pre_init then
          [.pulse cfg.mw_channel none,
           .trigger [] [cfg.laser_gate_pmod] cfg.readout_integration_treg 0 none,
           .syncAll (cfg.readout_integration_treg + cfg.relax_delay_treg)]
        else []),
     none⟩

/-- `LockinODMR_johns.body` (lines 158-199): two laser gates, two ADC triggers,
one microwave pulse, then `sync_all` and `wait_all`. -/
def LockinODMR_body (cfg : NVConfig) : List HWEvent :=
  [.trigger [] [cfg.laser_gate_pmod]
     (cfg.readout_integration_treg + cfg.adc_trigger_offset_treg) 0 (some 0),
   .trigger [cfg.adc_channel] [] cfg.readout_integration_treg 0
     (some cfg.adc_trigger_offset_treg),
   .pulse cfg.mw_channel (some cfg.adc_trigger_offset_treg),
   .trigger [] [cfg.laser_gate_pmod]
     (cfg.readout_integration_treg + cfg.adc_trigger_offset_treg) 0
     (some (cfg.readout_integration_treg + cfg.relax_delay_treg + cfg.adc_trigger_offset_treg)),
   .trigger [cfg.adc_channel] [] cfg.readout_integration_treg 0
     (some (cfg.readout_integration_treg + cfg.relax_delay_treg
            + 2 * cfg.adc_trigger_offset_treg)),
   .syncAll cfg.relax_delay_treg,
   .waitAll]

/-- `RabiSweep_johns.initialize` (lines 98-152): declares readout and
generator, sets default and per-pulse registers, allocates the length
register, adds the length sweep, `synci(400)`, an optional `pre_init` laser
gate, then `wait_all` and `sync_all(relax_delay)`. -/
def RabiSweep_init (cfg : NVConfig) : InitOutcome :=
  ⟨[.declareReadout cfg.adc_channel 0 cfg.readout_integration_treg ("input"),
    .declareGen cfg.mw_channel cfg.mw_nqz,
    .defaultPulseRegisters cfg.mw_channel
      [(("freq"), cfg.mw_freg), (("gain"), cfg.mw_gain), (("phase"), 0)]
      [(("style"), ("const"))],
    .setPulseRegisters cfg.mw_channel [(("length"), cfg.mw_start_treg)] [],
    .newGenRegEvt (.newGenReg cfg.mw_channel ("length")) cfg.mw_start_treg,
    .addSweep (.nvLength (.newGenReg cfg.mw_channel ("length"))
      cfg.mw_start_treg cfg.mw_end_treg cfg.nsweep_points ("length") cfg.mw_channel),
    .synci 400]
   ++ (if cfg.pre_init then
        [.trigger [] [cfg.laser_gate_pmod] cfg.laser_init_treg cfg.adc_trigger_offset_treg none,
         .syncAll cfg.laser_init_treg]
      else [])
   ++ [.waitAll, .syncAll cfg.relax_delay_treg],
   none⟩

/-- `RabiSweep_johns.body` (lines 154-207), with the running time variable `t`
of the source folded into the literal trigger times. -/
def RabiSweep_body (cfg : NVConfig) : List HWEvent :=
  [.trigger [] [cfg.laser_gate_pmod] cfg.laser_init_treg 0 (some 0),
   .pulse cfg.mw_channel (some cfg.laser_init_treg),
   .syncReg (.newGenReg cfg.mw_channel ("length")),
   .trigger [cfg.adc_channel] [cfg.laser_gate_pmod] cfg.readout_integration_treg
     cfg.adc_trig_offset_treg (some (cfg.laser_init_treg + cfg.mw_delay_treg)),
   .trigger [] [cfg.laser_gate_pmod] cfg.laser_init_treg 0
     (some (cfg.laser_init_treg + cfg.mw_delay_treg + cfg.readout_integration_treg)),
   .trigger [cfg.adc_channel] [cfg.laser_gate_pmod] cfg.readout_integration_treg
     cfg.adc_trig_offset_treg
     (some (cfg.laser_init_treg + cfg.mw_delay_treg + cfg.readout_integration_treg
            + cfg.mw_delay_treg + cfg.mw_delay_treg + cfg.mw_end_treg)),
   .syncAll cfg.relax_delay_treg,
   .waitAll]

/-- `T1DelaySweep.initialize` (lines 91-151): declares readout (on literal
channel 0) and generator, sets registers, allocates the delay register, adds
the delay sweep for an `exponential` or `linear` scaling mode (and no sweep
for any other mode), `synci(400)`, and an optional `pre_init` laser gate. -/
def T1DelaySweep_init (cfg : NVConfig) : InitOutcome :=
  ⟨[.declareReadout 0 0 cfg.readout_integration_treg ("input"),
    .declareGen cfg.mw_channel cfg.mw_nqz,
    .defaultPulseRegisters cfg.mw_channel
      [(("freq"), cfg.mw_freg), (("length"), cfg.mw_pi2_treg), (("gain"), cfg.mw_gain)]
      [(("style"), ("const"))],
    .setPulseRegisters cfg.mw_channel [(("phase"), 0)] [],
    .newGenRegEvt (.newGenReg cfg.mw_channel ("delay")) cfg.delay_start_treg]
   ++ (if cfg.scaling_mode = "exponential" then
        [.addSweep (.nvExp (.newGenReg cfg.mw_channel ("delay"))
          cfg.delay_start_treg cfg.delay_end_treg cfg.nsweep_points
          cfg.scaling_mode cfg.scaling_factor)]
      else if cfg.scaling_mode = "linear" then
        [.addSweep (.nvLin (.newGenReg cfg.mw_channel ("delay"))
          cfg.delay_start_treg cfg.delay_end_treg cfg.nsweep_points)]
      else [])
   ++ [.synci 400]
   ++ (if cfg.pre_init then
        [.trigger [] [cfg.laser_gate_pmod] cfg.laser_on_treg 0 none,
         .syncAll (cfg.laser_on_treg + cfg.relax_delay_treg)]
      else []),
   none⟩

/-- `T1DelaySweep.body` (lines 153-189): two pi/2 pulses, sync on the delay
register and a `ttl_readout`, then the same sequence with the microwave off. -/
def T1DelaySweep_body (cfg : NVConfig) : List HWEvent :=
  [.pulse cfg.mw_channel (some 0),
   .pulse cfg.mw_channel (some cfg.mw_pi2_treg),
   .synci (cfg.mw_pi2_treg * 2),
   .syncReg (.newGenReg cfg.mw_channel ("delay")),
   .syncAll cfg.mw_readout_delay_treg,
   .ttlReadout,
   .synci (cfg.mw_pi2_treg * 2),
   .syncReg (.newGenReg cfg.mw_channel ("delay")),
   .syncAll cfg.mw_readout_delay_treg,
   .ttlReadout]

/-- The sweeps registered by an `initialize` run, in order. -/
def sweepsOf (r : InitOutcome) : List SweepSpec :=
  r.events.filterMap fun e =>
    match e with
    | .addSweep s => some s
    | _ => none

/-- The ordered hardware-call kind sequence of an `initialize` run followed by
one `body` run. -/
def kindTrace (ini : InitOutcome) (body : List HWEvent) : List HWKind :=
  (ini.events ++ body).map HWEvent.kind

/-- Return value of `LockinODMR_johns.acquire`: either the raw flat array or
the outcome of `analyze_results` on it. -/
inductive ODMRAcquireOut where
  | raw (data : List ℚ)
  | analyzed (r : Option ODMRResult)

/-- Return value of `RabiSweep_johns.acquire`. -/
inductive RabiAcquireOut where
  | raw (data : List ℚ)
  | analyzed (r : Option RabiResult)

/-- `LockinODMR_johns.acquire` (lines 201-208): the inherited
`super().acquire`, which lives outside this repository, is abstracted as the
function `superAcquire` from the requested `reads_per_rep` to the raw flat
array; the method calls it with `reads_per_rep=2` and post-processes the
result with `analyze_results` exactly when `raw_data` is `False`. -/
def LockinODMR_acquire (dataShape : List ℕ) (cfg : NVConfig)
    (superAcquire : ℤ → List ℚ) (raw_data : Bool) : ODMRAcquireOut :=
  let data := superAcquire 2
  if raw_data = false then
    .analyzed (LockinODMR_analyze_results dataShape cfg data)
  else
    .raw data

/-- `RabiSweep_johns.acquire` (lines 210-217), abstracted the same way. -/
def RabiSweep_acquire (dataShape : List ℕ) (cfg : NVConfig)
    (superAcquire : ℤ → List ℚ) (raw_data : Bool) : RabiAcquireOut :=
  let data := superAcquire 2
  if raw_data = false then
    .analyzed (RabiSweep_analyze_results dataShape cfg data)
  else
    .raw data

/-- A concrete configuration carrying every required attribute, used to
instantiate theorems and to exhibit counterexamples. -/
def cfgA : NVConfig where
  adc_channel := 0
  readout_integration_treg := 1
  mw_channel := 0
  mw_nqz := 1
  mw_gain := 100
  mw_freg := 5
  mw_start_freg := 10
  mw_start_fMHz := 2800
  mw_end_fMHz := 2900
  nsweep_points := 3
  mw_start_treg := 1
  mw_end_treg := 5
  mw_delta_treg := 1
  mw_delay_treg := 2
  mw_pi2_treg := 3
  mw_readout_delay_treg := 4
  pre_init := true
  relax_delay_treg := 7
  adc_trigger_offset_treg := 2
  adc_trig_offset_treg := 2
  laser_gate_pmod := 1
  laser_init_treg := 9
  laser_on_treg := 11
  scaling_mode := "linear"
  scaling_factor := 2
  delay_start_treg := 1
  delay_end_treg := 100
  reps := 10
  laser_power := 1

/-- `cfgA` with `pre_init` turned off. -/
def cfgPre0 : NVConfig := { cfgA with pre_init := false }

/-- `cfgA` with a scaling mode that is neither `exponential` nor `linear`. -/
def cfgQuad : NVConfig := { cfgA with scaling_mode := "quadratic" }

/-- `cfgA` with a microwave gain just above the guard threshold, inside the
documented range up to `2 ** 15 - 1`. -/
def cfgHighGain : NVConfig := { cfgA with mw_gain := 30001 }

/-- `cfgA` with different pulse timings but the same `pre_init` flag. -/
def cfgB : NVConfig :=
  { cfgA with readout_integration_treg := 50, relax_delay_treg := 400, mw_gain := 12000,
              laser_init_treg := 77, mw_pi2_treg := 8, nsweep_points := 25 }

/-- A concrete flat data array of size 4 = 2 * 1 * 2: two repetitions of one
sweep point with two reads (signal, reference) each. -/
def exData : List ℚ := [1, 1, 3, 2]

/-- A stand-in for the inherited `super().acquire` that returns `exData` for
every requested `reads_per_rep`. -/
def saA : ℤ → List ℚ := fun _ => exData

/-- A stand-in for the inherited `super().acquire` that agrees with `saA` at
`reads_per_rep = 2` only. -/
def saB : ℤ → List ℚ := fun r => if r = 2 then exData else []

/-- Iterated axis-0 means collapse into a mean over the combined leading
axes: `(sum_j (sum_i g i j) / d0) / d1 = (sum_i sum_j g i j) / (d0 * d1)`. -/
theorem doubleMean (d0 d1 : ℕ) (g : ℕ → ℕ → ℚ) :
    (∑ j ∈ Finset.range d1, (∑ i ∈ Finset.range d0, g i j) / (d0 : ℚ)) / (d1 : ℚ)
      = (∑ i ∈ Finset.range d0, ∑ j ∈ Finset.range d1, g i j) / ((d0 : ℚ) * (d1 : ℚ)) := by
  rw [← Finset.sum_div, div_div, Finset.sum_comm]

/-- C1: for every configuration and every input whose size equals the product
of the data shape, with shape length 2, 3 or 4, `LockinODMR_johns.analyze_results`
computes, elementwise over the reshaped and time-normalized data,
`odmr = signal - reference` and `odmr_contrast = (signal - reference) / reference * 100`
with `signal` the last-axis slice at 0 and `reference` the slice at 1, and the
returned `.odmr` and `.odmr_contrast` are those arrays averaged over all
leading (repetition) axes. -/
theorem c1_odmr_elementwise_then_mean :
    (∀ (d0 d1 : ℕ) (cfg : NVConfig) (data : List ℚ),
      data.length = ([d0, d1] : List ℕ).prod →
      ∀ j : ℕ,
        (LockinODMR_analyze_results [d0, d1] cfg data).map (fun r => r.odmr.f j)
          = some ((normed2 data d0 d1 (cfg.readout_integration_treg : ℚ)).f j 0
                  - (normed2 data d0 d1 (cfg.readout_integration_treg : ℚ)).f j 1) ∧
        (LockinODMR_analyze_results [d0, d1] cfg data).map (fun r => r.odmr_contrast.f j)
          = some (contrastOp ((normed2 data d0 d1 (cfg.readout_integration_treg : ℚ)).f j 0)
                  ((normed2 data d0 d1 (cfg.readout_integration_treg : ℚ)).f j 1))) ∧
    (∀ (d0 d1 d2 : ℕ) (cfg : NVConfig) (data : List ℚ),
      data.length = ([d0, d1, d2] : List ℕ).prod →
      ∀ j : ℕ,
        (LockinODMR_analyze_results [d0, d1, d2] cfg data).map (fun r => r.odmr.f j)
          = some ((∑ i ∈ Finset.range d0,
              ((normed3 data d0 d1 d2 (cfg.readout_integration_treg : ℚ)).f i j 0
               - (normed3 data d0 d1 d2 (cfg.readout_integration_treg : ℚ)).f i j 1))
              / (d0 : ℚ)) ∧
        (LockinODMR_analyze_results [d0, d1, d2] cfg data).map (fun r => r.odmr_contrast.f j)
          = some ((∑ i ∈ Finset.range d0,
              contrastOp ((normed3 data d0 d1 d2 (cfg.readout_integration_treg : ℚ)).f i j 0)
                ((normed3 data d0 d1 d2 (cfg.readout_integration_treg : ℚ)).f i j 1))
              / (d0 : ℚ))) ∧
    (∀ (d0 d1 d2 d3 : ℕ) (cfg : NVConfig) (data : List ℚ),
      data.length = ([d0, d1, d2, d3] : List ℕ).prod →
      ∀ k : ℕ,
        (LockinODMR_analyze_results [d0, d1, d2, d3] cfg data).map (fun r => r.odmr.f k)
          = some ((∑ i ∈ Finset.range d0, ∑ j ∈ Finset.range d1,
              ((normed4 data d0 d1 d2 d3 (cfg.readout_integration_treg : ℚ)).f i j k 0
               - (normed4 data d0 d1 d2 d3 (cfg.readout_integration_treg : ℚ)).f i j k 1))
              / ((d0 : ℚ) * (d1 : ℚ))) ∧
        (LockinODMR_analyze_results [d0, d1, d2, d3] cfg data).map
            (fun r => r.odmr_contrast.f k)
          = some ((∑ i ∈ Finset.range d0, ∑ j ∈ Finset.range d1,
              contrastOp
                ((normed4 data d0 d1 d2 d3 (cfg.readout_integration_treg : ℚ)).f i j k 0)
                ((normed4 data d0 d1 d2 d3 (cfg.readout_integration_treg : ℚ)).f i j k 1))
              / ((d0 : ℚ) * (d1 : ℚ)))) := by
  refine ⟨?_, ?_, ?_⟩
  · intro d0 d1 cfg data h j
    simp only [LockinODMR_analyze_results]
    rw [if_pos h]
    exact ⟨rfl, rfl⟩
  · intro d0 d1 d2 cfg data h j
    simp only [LockinODMR_analyze_results]
    rw [if_pos h]
    exact ⟨rfl, rfl⟩
  · intro d0 d1 d2 d3 cfg data h k
    simp only [LockinODMR_analyze_results]
    rw [if_pos h]
    exact ⟨congrArg some (doubleMean d0 d1 _), congrArg some (doubleMean d0 d1 _)⟩

/-- Witness for C1 at the concrete shape `(2, 1, 2)`, data `exData` and
configuration `cfgA`. -/
theorem c1_odmr_elementwise_then_mean_witness :
    (LockinODMR_analyze_results [2, 1, 2] cfgA exData).map (fun r => r.odmr.f 0)
      = some ((∑ i ∈ Finset.range 2,
          ((normed3 exData 2 1 2 (cfgA.readout_integration_treg : ℚ)).f i 0 0
           - (normed3 exData 2 1 2 (cfgA.readout_integration_treg : ℚ)).f i 0 1))
          / ((2 : ℕ) : ℚ)) :=
  (c1_odmr_elementwise_then_mean.2.1 2 1 2 cfgA exData (by decide) 0).1

/-- C2: both `analyze_results` methods first reshape the flat input to the
data shape and divide every element by `cfg.readout_integration_treg`, and only
then separate signal (last-axis index 0) from reference (last-axis index 1):
the signal/reference arrays each method works with are exactly the last-axis
slices of the normalized reshape (followed only by the averaging loop), and
each separated entry is the flat entry at the row-major index divided by
`readout_integration_treg`, with no other transformation. -/
theorem c2_normalize_before_separation :
    (∀ (d0 d1 : ℕ) (cfg : NVConfig) (data : List ℚ),
      data.length = ([d0, d1] : List ℕ).prod →
      (LockinODMR_analyze_results [d0, d1] cfg data).map (fun r => r.signal)
          = some (sliceLast2 (normed2 data d0 d1 (cfg.readout_integration_treg : ℚ)) 0) ∧
      (LockinODMR_analyze_results [d0, d1] cfg data).map (fun r => r.reference)
          = some (sliceLast2 (normed2 data d0 d1 (cfg.readout_integration_treg : ℚ)) 1) ∧
      (RabiSweep_analyze_results [d0, d1] cfg data).map (fun r => r.signal)
          = some (sliceLast2 (normed2 data d0 d1 (cfg.readout_integration_treg : ℚ)) 0) ∧
      (RabiSweep_analyze_results [d0, d1] cfg data).map (fun r => r.reference)
          = some (sliceLast2 (normed2 data d0 d1 (cfg.readout_integration_treg : ℚ)) 1)) ∧
    (∀ (d0 d1 d2 : ℕ) (cfg : NVConfig) (data : List ℚ),
      data.length = ([d0, d1, d2] : List ℕ).prod →
      (LockinODMR_analyze_results [d0, d1, d2] cfg data).map (fun r => r.signal)
          = some (mean0of2
              (sliceLast3 (normed3 data d0 d1 d2 (cfg.readout_integration_treg : ℚ)) 0)) ∧
      (LockinODMR_analyze_results [d0, d1, d2] cfg data).map (fun r => r.reference)
          = some (mean0of2
              (sliceLast3 (normed3 data d0 d1 d2 (cfg.readout_integration_treg : ℚ)) 1)) ∧
      (RabiSweep_analyze_results [d0, d1, d2] cfg data).map (fun r => r.signal)
          = some (mean0of2
              (sliceLast3 (normed3 data d0 d1 d2 (cfg.readout_integration_treg : ℚ)) 0)) ∧
      (RabiSweep_analyze_results [d0, d1, d2] cfg data).map (fun r => r.reference)
          = some (mean0of2
              (sliceLast3 (normed3 data d0 d1 d2 (cfg.readout_integration_treg : ℚ)) 1))) ∧
    (∀ (d0 d1 d2 d3 : ℕ) (cfg : NVConfig) (data : List ℚ),
      data.length = ([d0, d1, d2, d3] : List ℕ).prod →
      (LockinODMR_analyze_results [d0, d1, d2, d3] cfg data).map (fun r => r.signal)
          = some (mean0of2 (mean0of3 (sliceLast4
              (normed4 data d0 d1 d2 d3 (cfg.readout_integration_treg : ℚ)) 0))) ∧
      (LockinODMR_analyze_results [d0, d1, d2, d3] cfg data).map (fun r => r.reference)
          = some (mean0of2 (mean0of3 (sliceLast4
              (normed4 data d0 d1 d2 d3 (cfg.readout_integration_treg : ℚ)) 1))) ∧
      (RabiSweep_analyze_results [d0, d1, d2, d3] cfg data).map (fun r => r.signal)
          = some (mean0of2 (mean0of3 (sliceLast4
              (normed4 data d0 d1 d2 d3 (cfg.readout_integration_treg : ℚ)) 0))) ∧
      (RabiSweep_analyze_results [d0, d1, d2, d3] cfg data).map (fun r => r.reference)
          = some (mean0of2 (mean0of3 (sliceLast4
              (normed4 data d0 d1 d2 d3 (cfg.readout_integration_treg : ℚ)) 1)))) ∧
    (∀ (data : List ℚ) (d0 d1 : ℕ) (t : ℚ) (i s : ℕ),
      (sliceLast2 (normed2 data d0 d1 t) s).f i = data.getD (i * d1 + s) 0 / t) ∧
    (∀ (data : List ℚ) (d0 d1 d2 : ℕ) (t : ℚ) (i j s : ℕ),
      (sliceLast3 (normed3 data d0 d1 d2 t) s).f i j
        = data.getD ((i * d1 + j) * d2 + s) 0 / t) ∧
    (∀ (data : List ℚ) (d0 d1 d2 d3 : ℕ) (t : ℚ) (i j k s : ℕ),
      (sliceLast4 (normed4 data d0 d1 d2 d3 t) s).f i j k
        = data.getD (((i * d1 + j) * d2 + k) * d3 + s) 0 / t) := by
  refine ⟨?_, ?_, ?_, fun _ _ _ _ _ _ => rfl, fun _ _ _ _ _ _ _ _ => rfl,
    fun _ _ _ _ _ _ _ _ _ _ => rfl⟩
  · intro d0 d1 cfg data h
    simp only [LockinODMR_analyze_results, RabiSweep_analyze_results]
    rw [if_pos h, if_pos h]
    exact ⟨rfl, rfl, rfl, rfl⟩
  · intro d0 d1 d2 cfg data h
    simp only [LockinODMR_analyze_results, RabiSweep_analyze_results]
    rw [if_pos h, if_pos h]
    exact ⟨rfl, rfl, rfl, rfl⟩
  · intro d0 d1 d2 d3 cfg data h
    simp only [LockinODMR_analyze_results, RabiSweep_analyze_results]
    rw [if_pos h, if_pos h]
    exact ⟨rfl, rfl, rfl, rfl⟩

/-- Witness for C2 at the concrete shape `(2, 1, 2)`, data `exData` and
configuration `cfgA`. -/
theorem c2_normalize_before_separation_witness :
    (LockinODMR_analyze_results [2, 1, 2] cfgA exData).map (fun r => r.signal)
      = some (mean0of2
          (sliceLast3 (normed3 exData 2 1 2 (cfgA.readout_integration_treg : ℚ)) 0)) :=
  (c2_normalize_before_separation.2.1 2 1 2 cfgA exData (by decide)).1

/-- C3: for data shapes of length 2, 3 and 4, the iterated axis-0 mean applied
by `analyze_results` (`len(shape) - 1` times) reduces each of `signal`,
`reference`, `odmr` and `odmr_contrast` to a 1-D array whose length is the
sweep-point axis of the data shape and whose entry at each sweep point is the
arithmetic mean of that quantity over all leading repetition/round axes
combined; likewise for the `signal`/`reference` arrays of
`RabiSweep_johns.analyze_results`. -/
theorem c3_iterated_mean_reduction :
    (∀ (d0 d1 : ℕ) (cfg : NVConfig) (data : List ℚ),
      data.length = ([d0, d1] : List ℕ).prod →
      (LockinODMR_analyze_results [d0, d1] cfg data).map
          (fun r => (r.odmr.n, r.signal.n, r.reference.n, r.odmr_contrast.n))
        = some (d0, d0, d0, d0) ∧
      (RabiSweep_analyze_results [d0, d1] cfg data).map (fun r => (r.signal.n, r.reference.n))
        = some (d0, d0) ∧
      ∀ j : ℕ,
        (LockinODMR_analyze_results [d0, d1] cfg data).map (fun r => r.signal.f j)
          = some ((normed2 data d0 d1 (cfg.readout_integration_treg : ℚ)).f j 0) ∧
        (LockinODMR_analyze_results [d0, d1] cfg data).map (fun r => r.reference.f j)
          = some ((normed2 data d0 d1 (cfg.readout_integration_treg : ℚ)).f j 1) ∧
        (LockinODMR_analyze_results [d0, d1] cfg data).map (fun r => r.odmr.f j)
          = some ((normed2 data d0 d1 (cfg.readout_integration_treg : ℚ)).f j 0
              - (normed2 data d0 d1 (cfg.readout_integration_treg : ℚ)).f j 1) ∧
        (LockinODMR_analyze_results [d0, d1] cfg data).map (fun r => r.odmr_contrast.f j)
          = some (contrastOp ((normed2 data d0 d1 (cfg.readout_integration_treg : ℚ)).f j 0)
              ((normed2 data d0 d1 (cfg.readout_integration_treg : ℚ)).f j 1)) ∧
        (RabiSweep_analyze_results [d0, d1] cfg data).map (fun r => r.signal.f j)
          = some ((normed2 data d0 d1 (cfg.readout_integration_treg : ℚ)).f j 0) ∧
        (RabiSweep_analyze_results [d0, d1] cfg data).map (fun r => r.reference.f j)
          = some ((normed2 data d0 d1 (cfg.readout_integration_treg : ℚ)).f j 1)) ∧
    (∀ (d0 d1 d2 : ℕ) (cfg : NVConfig) (data : List ℚ),
      data.length = ([d0, d1, d2] : List ℕ).prod →
      (LockinODMR_analyze_results [d0, d1, d2] cfg data).map
          (fun r => (r.odmr.n, r.signal.n, r.reference.n, r.odmr_contrast.n))
        = some (d1, d1, d1, d1) ∧
      (RabiSweep_analyze_results [d0, d1, d2] cfg data).map
          (fun r => (r.signal.n, r.reference.n))
        = some (d1, d1) ∧
      ∀ j : ℕ,
        (LockinODMR_analyze_results [d0, d1, d2] cfg data).map (fun r => r.signal.f j)
          = some ((∑ i ∈ Finset.range d0,
              (normed3 data d0 d1 d2 (cfg.readout_integration_treg : ℚ)).f i j 0)
              / (d0 : ℚ)) ∧
        (LockinODMR_analyze_results [d0, d1, d2] cfg data).map (fun r => r.reference.f j)
          = some ((∑ i ∈ Finset.range d0,
              (normed3 data d0 d1 d2 (cfg.readout_integration_treg : ℚ)).f i j 1)
              / (d0 : ℚ)) ∧
        (LockinODMR_analyze_results [d0, d1, d2] cfg data).map (fun r => r.odmr.f j)
          = some ((∑ i ∈ Finset.range d0,
              ((normed3 data d0 d1 d2 (cfg.readout_integration_treg : ℚ)).f i j 0
               - (normed3 data d0 d1 d2 (cfg.readout_integration_treg : ℚ)).f i j 1))
              / (d0 : ℚ)) ∧
        (LockinODMR_analyze_results [d0, d1, d2] cfg data).map (fun r => r.odmr_contrast.f j)
          = some ((∑ i ∈ Finset.range d0,
              contrastOp ((normed3 data d0 d1 d2 (cfg.readout_integration_treg : ℚ)).f i j 0)
                ((normed3 data d0 d1 d2 (cfg.readout_integration_treg : ℚ)).f i j 1))
              / (d0 : ℚ)) ∧
        (RabiSweep_analyze_results [d0, d1, d2] cfg data).map (fun r => r.signal.f j)
          = some ((∑ i ∈ Finset.range d0,
              (normed3 data d0 d1 d2 (cfg.readout_integration_treg : ℚ)).f i j 0)
              / (d0 : ℚ)) ∧
        (RabiSweep_analyze_results [d0, d1, d2] cfg data).map (fun r => r.reference.f j)
          = some ((∑ i ∈ Finset.range d0,
              (normed3 data d0 d1 d2 (cfg.readout_integration_treg : ℚ)).f i j 1)
              / (d0 : ℚ))) ∧
    (∀ (d0 d1 d2 d3 : ℕ) (cfg : NVConfig) (data : List ℚ),
      data.length = ([d0, d1, d2, d3] : List ℕ).prod →
      (LockinODMR_analyze_results [d0, d1, d2, d3] cfg data).map
          (fun r => (r.odmr.n, r.signal.n, r.reference.n, r.odmr_contrast.n))
        = some (d2, d2, d2, d2) ∧
      (RabiSweep_analyze_results [d0, d1, d2, d3] cfg data).map
          (fun r => (r.signal.n, r.reference.n))
        = some (d2, d2) ∧
      ∀ k : ℕ,
        (LockinODMR_analyze_results [d0, d1, d2, d3] cfg data).map (fun r => r.signal.f k)
          = some ((∑ i ∈ Finset.range d0, ∑ j ∈ Finset.range d1,
              (normed4 data d0 d1 d2 d3 (cfg.readout_integration_treg : ℚ)).f i j k 0)
              / ((d0 : ℚ) * (d1 : ℚ))) ∧
        (LockinODMR_analyze_results [d0, d1, d2, d3] cfg data).map (fun r => r.reference.f k)
          = some ((∑ i ∈ Finset.range d0, ∑ j ∈ Finset.range d1,
              (normed4 data d0 d1 d2 d3 (cfg.readout_integration_treg : ℚ)).f i j k 1)
              / ((d0 : ℚ) * (d1 : ℚ))) ∧
        (LockinODMR_analyze_results [d0, d1, d2, d3] cfg data).map (fun r => r.odmr.f k)
          = some ((∑ i ∈ Finset.range d0, ∑ j ∈ Finset.range d1,
              ((normed4 data d0 d1 d2 d3 (cfg.readout_integration_treg : ℚ)).f i j k 0
               - (normed4 data d0 d1 d2 d3 (cfg.readout_integration_treg : ℚ)).f i j k 1))
              / ((d0 : ℚ) * (d1 : ℚ))) ∧
        (LockinODMR_analyze_results [d0, d1, d2, d3] cfg data).map
            (fun r => r.odmr_contrast.f k)
          = some ((∑ i ∈ Finset.range d0, ∑ j ∈ Finset.range d1,
              contrastOp
                ((normed4 data d0 d1 d2 d3 (cfg.readout_integration_treg : ℚ)).f i j k 0)
                ((normed4 data d0 d1 d2 d3 (cfg.readout_integration_treg : ℚ)).f i j k 1))
              / ((d0 : ℚ) * (d1 : ℚ))) ∧
        (RabiSweep_analyze_results [d0, d1, d2, d3] cfg data).map (fun r => r.signal.f k)
          = some ((∑ i ∈ Finset.range d0, ∑ j ∈ Finset.range d1,
              (normed4 data d0 d1 d2 d3 (cfg.readout_integration_treg : ℚ)).f i j k 0)
              / ((d0 : ℚ) * (d1 : ℚ))) ∧
        (RabiSweep_analyze_results [d0, d1, d2, d3] cfg data).map (fun r => r.reference.f k)
          = some ((∑ i ∈ Finset.range d0, ∑ j ∈ Finset.range d1,
              (normed4 data d0 d1 d2 d3 (cfg.readout_integration_treg : ℚ)).f i j k 1)
              / ((d0 : ℚ) * (d1 : ℚ)))) := by
  refine ⟨?_, ?_, ?_⟩
  · intro d0 d1 cfg data h
    simp only [LockinODMR_analyze_results, RabiSweep_analyze_results]
    rw [if_pos h, if_pos h]
    exact ⟨rfl, rfl, fun j => ⟨rfl, rfl, rfl, rfl, rfl, rfl⟩⟩
  · intro d0 d1 d2 cfg data h
    simp only [LockinODMR_analyze_results, RabiSweep_analyze_results]
    rw [if_pos h, if_pos h]
    exact ⟨rfl, rfl, fun j => ⟨rfl, rfl, rfl, rfl, rfl, rfl⟩⟩
  · intro d0 d1 d2 d3 cfg data h
    simp only [LockinODMR_analyze_results, RabiSweep_analyze_results]
    rw [if_pos h, if_pos h]
    exact ⟨rfl, rfl, fun k =>
      ⟨congrArg some (doubleMean d0 d1 _), congrArg some (doubleMean d0 d1 _),
       congrArg some (doubleMean d0 d1 _), congrArg some (doubleMean d0 d1 _),
       congrArg some (doubleMean d0 d1 _), congrArg some (doubleMean d0 d1 _)⟩⟩

/-- Witness for C3 at the concrete shape `(1, 2, 1, 2)`, data `exData` and
configuration `cfgA`. -/
theorem c3_iterated_mean_reduction_witness :
    (LockinODMR_analyze_results [1, 2, 1, 2] cfgA exData).map
        (fun r => (r.odmr.n, r.signal.n, r.reference.n, r.odmr_contrast.n))
      = some (1, 1, 1, 1) :=
  (c3_iterated_mean_reduction.2.2 1 2 1 2 cfgA exData (by decide)).1

/-- Counterexample to C4: at data shape `(2, 1, 2)`, data `exData = [1, 1, 3, 2]`
and `readout_integration_treg = 1`, `RabiSweep_johns.analyze_results` returns
contrast `100/3` (contrast of the averaged signal and reference) while
`LockinODMR_johns.analyze_results` returns `25` (average of the per-repetition
contrasts), so the two contrasts differ for the same input, shape and
integration time. -/
theorem c4_contrast_equality_counterexample :
    ¬ ((RabiSweep_analyze_results [2, 1, 2] cfgA exData).map (fun r => r.contrast.f 0)
        = (LockinODMR_analyze_results [2, 1, 2] cfgA exData).map
            (fun r => r.odmr_contrast.f 0)) := by
  intro h
  rw [show RabiSweep_analyze_results [2, 1, 2] cfgA exData
        = some (RabiSweep_analyze3 2 1 2 exData (cfgA.readout_integration_treg : ℚ)) from rfl,
      show LockinODMR_analyze_results [2, 1, 2] cfgA exData
        = some (LockinODMR_analyze3 2 1 2 exData (cfgA.readout_integration_treg : ℚ)) from rfl,
      Option.map_some', Option.map_some'] at h
  have h2 := Option.some.inj h
  simp only [RabiSweep_analyze3, LockinODMR_analyze3, mean0of2, map2Arr1, map2Arr2,
    sliceLast3, normed3, npDiv3, reshape3, contrastOp, Finset.sum_range_succ,
    Finset.sum_range_zero] at h2
  norm_num [exData, cfgA] at h2

/-- C4 amended: when the data shape has length 2 (no repetition axes, hence no
averaging) the Rabi `.contrast` and the ODMR `.odmr_contrast` coincide
elementwise; for shapes of length 3 and 4 the two classes produce identical
averaged `signal` and `reference` arrays, but the contrasts generally differ,
because ODMR averages the per-repetition contrasts while Rabi takes the
contrast of the averaged signal and reference. -/
theorem c4_contrast_equality_amended :
    (∀ (d0 d1 : ℕ) (data : List ℚ) (t : ℚ) (j : ℕ),
      (RabiSweep_analyze2 d0 d1 data t).contrast.f j
        = (LockinODMR_analyze2 d0 d1 data t).odmr_contrast.f j) ∧
    (∀ (d0 d1 d2 : ℕ) (data : List ℚ) (t : ℚ) (j : ℕ),
      (RabiSweep_analyze3 d0 d1 d2 data t).signal.f j
          = (LockinODMR_analyze3 d0 d1 d2 data t).signal.f j ∧
      (RabiSweep_analyze3 d0 d1 d2 data t).reference.f j
          = (LockinODMR_analyze3 d0 d1 d2 data t).reference.f j) ∧
    (∀ (d0 d1 d2 d3 : ℕ) (data : List ℚ) (t : ℚ) (k : ℕ),
      (RabiSweep_analyze4 d0 d1 d2 d3 data t).signal.f k
          = (LockinODMR_analyze4 d0 d1 d2 d3 data t).signal.f k ∧
      (RabiSweep_analyze4 d0 d1 d2 d3 data t).reference.f k
          = (LockinODMR_analyze4 d0 d1 d2 d3 data t).reference.f k) :=
  ⟨fun _ _ _ _ _ => rfl, fun _ _ _ _ _ _ => ⟨rfl, rfl⟩, fun _ _ _ _ _ _ _ => ⟨rfl, rfl⟩⟩

/-- Counterexample to C5: a configuration that provides every `required_cfg`
attribute but whose `scaling_mode` is neither `exponential` nor `linear` makes
`T1DelaySweep.initialize` register no sweep at all, not exactly one. -/
theorem c5_single_sweep_counterexample :
    ¬ ((sweepsOf (T1DelaySweep_init cfgQuad)).length = 1) := by
  decide

/-- C5 amended: each `initialize` registers exactly one hardware sweep over
exactly one parameter — the microwave frequency register from
`mw_start_fMHz` to `mw_end_fMHz` for `LockinODMR_johns` provided
`mw_gain <= 30000` (otherwise the method aborts before adding any sweep), the
microwave pulse-length register from `mw_start_treg` to `mw_end_treg` for
`RabiSweep_johns` unconditionally, and the delay register from
`delay_start_treg` to `delay_end_treg` for `T1DelaySweep` provided
`scaling_mode` is `exponential` or `linear` (any other mode registers no
sweep) — each in `cfg.nsweep_points` points. -/
theorem c5_single_sweep_amended :
    ∀ cfg : NVConfig,
      (cfg.mw_gain ≤ 30000 →
        sweepsOf (LockinODMR_init cfg)
          = [.qickSweep (.genReg cfg.mw_channel ("freq")) cfg.mw_start_fMHz cfg.mw_end_fMHz
              cfg.nsweep_points]) ∧
      sweepsOf (RabiSweep_init cfg)
        = [.nvLength (.newGenReg cfg.mw_channel ("length")) cfg.mw_start_treg cfg.mw_end_treg
            cfg.nsweep_points ("length") cfg.mw_channel] ∧
      ((cfg.scaling_mode = "exponential" ∨ cfg.scaling_mode = "linear") →
        (sweepsOf (T1DelaySweep_init cfg)).map
            (fun s => (s.reg, s.startv, s.stopv, s.expts))
          = [(.newGenReg cfg.mw_channel ("delay"), (cfg.delay_start_treg : ℚ),
              (cfg.delay_end_treg : ℚ), cfg.nsweep_points)]) := by
  intro cfg
  refine ⟨?_, ?_, ?_⟩
  · intro h
    have hg : ¬ (30000 : ℤ) < cfg.mw_gain := not_lt.mpr h
    unfold LockinODMR_init sweepsOf
    rw [if_neg hg]
    cases hp : cfg.pre_init
    · rfl
    · rfl
  · unfold RabiSweep_init sweepsOf
    cases hp : cfg.pre_init
    · rfl
    · rfl
  · intro hmode
    unfold T1DelaySweep_init sweepsOf
    rcases hmode with h | h <;> rw [h] <;> cases hp : cfg.pre_init <;>
      simp [SweepSpec.reg, SweepSpec.startv, SweepSpec.stopv, SweepSpec.expts]

/-- Witness for C5 (amended) at the concrete configuration `cfgA`, whose
`mw_gain` is below the threshold. -/
theorem c5_single_sweep_amended_witness :
    sweepsOf (LockinODMR_init cfgA)
      = [.qickSweep (.genReg cfgA.mw_channel ("freq")) cfgA.mw_start_fMHz cfgA.mw_end_fMHz
          cfgA.nsweep_points] :=
  (c5_single_sweep_amended cfgA).1 (by decide)

/-- Counterexample to C6: two configurations that both provide every required
attribute but differ in `pre_init` make `LockinODMR_johns.initialize` emit
different hardware-call kind sequences (the `pre_init` block adds a pulse, a
trigger and a sync), so the initialize/body call-kind sequence is not the same
for every two admissible configurations. -/
theorem c6_fixed_kind_sequence_counterexample :
    ¬ (kindTrace (LockinODMR_init cfgA) (LockinODMR_body cfgA)
        = kindTrace (LockinODMR_init cfgPre0) (LockinODMR_body cfgPre0)) := by
  decide

/-- C6 amended: for every two configurations that agree on `pre_init`, the
`initialize` and `body` methods emit the same ordered sequence of
hardware-call kinds, with only the arguments differing — provided, for
`LockinODMR_johns`, that neither configuration trips the `mw_gain` assertion,
and, for `T1DelaySweep`, that both configurations have a `scaling_mode` among
`exponential` and `linear`. -/
theorem c6_fixed_kind_sequence_amended :
    ∀ cfg1 cfg2 : NVConfig, cfg1.pre_init = cfg2.pre_init →
      ((cfg1.mw_gain ≤ 30000 → cfg2.mw_gain ≤ 30000 →
        kindTrace (LockinODMR_init cfg1) (LockinODMR_body cfg1)
          = kindTrace (LockinODMR_init cfg2) (LockinODMR_body cfg2)) ∧
       (kindTrace (RabiSweep_init cfg1) (RabiSweep_body cfg1)
          = kindTrace (RabiSweep_init cfg2) (RabiSweep_body cfg2)) ∧
       ((cfg1.scaling_mode = "exponential" ∨ cfg1.scaling_mode = "linear") →
        (cfg2.scaling_mode = "exponential" ∨ cfg2.scaling_mode = "linear") →
        kindTrace (T1DelaySweep_init cfg1) (T1DelaySweep_body cfg1)
          = kindTrace (T1DelaySweep_init cfg2) (T1DelaySweep_body cfg2))) := by
  intro cfg1 cfg2 hpre
  refine ⟨?_, ?_, ?_⟩
  · intro h1 h2
    have hg1 : ¬ (30000 : ℤ) < cfg1.mw_gain := not_lt.mpr h1
    have hg2 : ¬ (30000 : ℤ) < cfg2.mw_gain := not_lt.mpr h2
    unfold kindTrace LockinODMR_init LockinODMR_body
    rw [if_neg hg1, if_neg hg2, hpre]
    cases hp : cfg2.pre_init
    · rfl
    · rfl
  · unfold kindTrace RabiSweep_init RabiSweep_body
    rw [hpre]
    cases hp : cfg2.pre_init
    · rfl
    · rfl
  · intro hm1 hm2
    unfold kindTrace T1DelaySweep_init T1DelaySweep_body
    rw [hpre]
    rcases hm1 with h1 | h1 <;> rcases hm2 with h2 | h2 <;> rw [h1, h2] <;>
      cases hp : cfg2.pre_init <;> rfl

/-- Witness for C6 (amended): `cfgA` and `cfgB` share `pre_init` but differ in
several numeric attributes, and their Rabi initialize/body kind sequences
coincide. -/
theorem c6_fixed_kind_sequence_amended_witness :
    kindTrace (RabiSweep_init cfgA) (RabiSweep_body cfgA)
      = kindTrace (RabiSweep_init cfgB) (RabiSweep_body cfgB) :=
  (c6_fixed_kind_sequence_amended cfgA cfgB rfl).2.1

/-- C7: `LockinODMR_johns.acquire` and `RabiSweep_johns.acquire` call the
inherited acquisition with `reads_per_rep=2` (their output depends only on the
superclass result for two reads per repetition), return the `analyze_results`
post-processing of the raw acquisition exactly when `raw_data` is `False`, and
return the raw array untouched when `raw_data` is `True`. -/
theorem c7_acquire_reads_and_dispatch :
    ∀ (dataShape : List ℕ) (cfg : NVConfig) (sa : ℤ → List ℚ),
      (LockinODMR_acquire dataShape cfg sa false
        = .analyzed (LockinODMR_analyze_results dataShape cfg (sa 2))) ∧
      (LockinODMR_acquire dataShape cfg sa true = .raw (sa 2)) ∧
      (∀ (sa' : ℤ → List ℚ) (rd : Bool), sa 2 = sa' 2 →
        LockinODMR_acquire dataShape cfg sa rd = LockinODMR_acquire dataShape cfg sa' rd) ∧
      (RabiSweep_acquire dataShape cfg sa false
        = .analyzed (RabiSweep_analyze_results dataShape cfg (sa 2))) ∧
      (RabiSweep_acquire dataShape cfg sa true = .raw (sa 2)) ∧
      (∀ (sa' : ℤ → List ℚ) (rd : Bool), sa 2 = sa' 2 →
        RabiSweep_acquire dataShape cfg sa rd = RabiSweep_acquire dataShape cfg sa' rd) := by
  intro dataShape cfg sa
  refine ⟨rfl, rfl, ?_, rfl, rfl, ?_⟩ <;>
    · intro sa' rd h
      simp only [LockinODMR_acquire, RabiSweep_acquire, h]

/-- Witness for C7: `saA` and `saB` agree at `reads_per_rep = 2` only, and the
two acquire runs coincide. -/
theorem c7_acquire_reads_and_dispatch_witness :
    LockinODMR_acquire [2, 1, 2] cfgA saA false = LockinODMR_acquire [2, 1, 2] cfgA saB false :=
  (c7_acquire_reads_and_dispatch [2, 1, 2] cfgA saA).2.2.1 saB false rfl

/-- C8: on an input whose size matches the data shape, both `analyze_results`
methods produce a result exactly when the data shape has length 2, 3 or 4; any
other length leaves `signal`/`reference` unassigned and the method aborts with
an unbound-local error (modelled as `none`), so `2 <= len(data_shape) <= 4` is
an unstated precondition of the analysis. -/
theorem c8_shape_length_precondition :
    ∀ (dataShape : List ℕ) (cfg : NVConfig) (data : List ℚ),
      data.length = dataShape.prod →
      (((LockinODMR_analyze_results dataShape cfg data).isSome
          ↔ 2 ≤ dataShape.length ∧ dataShape.length ≤ 4) ∧
       ((RabiSweep_analyze_results dataShape cfg data).isSome
          ↔ 2 ≤ dataShape.length ∧ dataShape.length ≤ 4)) := by
  intro dataShape cfg data h
  rcases dataShape with _ | ⟨a, _ | ⟨b, _ | ⟨c, _ | ⟨d, _ | ⟨e, rest⟩⟩⟩⟩⟩ <;>
    constructor <;>
      simp [LockinODMR_analyze_results, RabiSweep_analyze_results, h]

/-- Witness for C8 at shape `(2, 1, 2)` with matching input `exData`: the
analysis indeed produces a result. -/
theorem c8_shape_length_precondition_witness :
    (LockinODMR_analyze_results [2, 1, 2] cfgA exData).isSome :=
  ((c8_shape_length_precondition [2, 1, 2] cfgA exData (by decide)).1).mpr (by decide)

/-- C9: given a configuration with every required attribute,
`LockinODMR_johns.initialize` fails its assertion if and only if
`mw_gain > 30000`, in which case it has issued no hardware call at all — in
particular neither the readout nor the generator declaration — and gains up to
the documented bound `2 ** 15 - 1 = 32767` are still rejected whenever they
exceed 30000. -/
theorem c9_mw_gain_guard :
    ∀ cfg : NVConfig,
      (((LockinODMR_init cfg).error).isSome ↔ 30000 < cfg.mw_gain) ∧
      (30000 < cfg.mw_gain →
        (LockinODMR_init cfg).error = some ("Microwave gain exceeds maximum value") ∧
        (LockinODMR_init cfg).events = []) ∧
      (30000 < cfg.mw_gain → cfg.mw_gain ≤ 2 ^ 15 - 1 →
        ((LockinODMR_init cfg).error).isSome) := by
  intro cfg
  by_cases hg : (30000 : ℤ) < cfg.mw_gain
  · refine ⟨?_, fun _ => ⟨?_, ?_⟩, fun _ _ => ?_⟩ <;>
      simp [LockinODMR_init, hg]
  · refine ⟨?_, fun h => absurd h hg, fun h _ => absurd h hg⟩
    simp [LockinODMR_init, hg]

/-- Witness for C9 at `cfgHighGain` (`mw_gain = 30001`): the assertion fires
and no hardware call was issued. -/
theorem c9_mw_gain_guard_witness :
    ((LockinODMR_init cfgHighGain).error).isSome ∧ (LockinODMR_init cfgHighGain).events = [] :=
  ⟨(c9_mw_gain_guard cfgHighGain).1.mpr (by decide),
   ((c9_mw_gain_guard cfgHighGain).2.1 (by decide)).2⟩
